import Mathlib

/-!
Verification of `quantumSim_biosafetyCir.py` (quantum-biosafety-logic).

The script builds a fixed 5-qubit reversible circuit computing the kill
rule K = M OR T OR G, sweeps the 8 boolean input triples on an ideal
Aer simulator, runs a Hadamard-superposition experiment with and without
a depolarizing/readout noise model, and plots histograms.

Shallow embedding: circuits are lists of gate operations; the truth-table
path uses only classical reversible gates (Reset, X, CX, CCX, Measure),
so its semantics is deterministic evolution of a classical basis state.
Simulator invocations are embedded as the argument records the script
passes to `backend.run` (circuit, shots, noise model, seed).  The plotting
helper is embedded as the record of the effects it performs.
-/

/-- A gate operation, mirroring the qiskit calls used by the script:
`reset`, `x`, `h`, `cx`, `ccx`, and `measure qubit → clbit`. -/
inductive Gate where
  | reset (q : Nat)
  | x (q : Nat)
  | h (q : Nat)
  | cx (c t : Nat)
  | ccx (c1 c2 t : Nat)
  | measure (q c : Nat)
deriving DecidableEq, Repr

/-- The qubit indices an operation acts on. -/
def Gate.qubits : Gate → List Nat
  | .reset q => [q]
  | .x q => [q]
  | .h q => [q]
  | .cx c t => [c, t]
  | .ccx c1 c2 t => [c1, c2, t]
  | .measure q _ => [q]

/-- A circuit: qubit count, classical-bit count, ordered operation list
(mirrors `QuantumCircuit(qr, cr)` plus the appended instructions). -/
structure Circuit where
  numQubits : Nat
  numClbits : Nat
  ops : List Gate
deriving DecidableEq, Repr

/-- A classical basis state: one boolean per qubit and per classical bit. -/
structure CState where
  qubits : List Bool
  clbits : List Bool
deriving DecidableEq, Repr

/-- The all-|0⟩ initial state with `nq` qubits and `nc` classical bits,
as an Aer run starts from. -/
def initState (nq nc : Nat) : CState :=
  ⟨List.replicate nq false, List.replicate nc false⟩

/-- Classical action of one gate on a basis state.  `reset` forces the
qubit to 0, `x` flips it, `cx`/`ccx` flip the target when the controls
are 1, `measure` copies the qubit into the classical bit.  `h` creates
superposition and has no basis-state semantics, hence `none`. -/
def applyGate : Gate → CState → Option CState
  | .reset q, s => some ⟨s.qubits.set q false, s.clbits⟩
  | .x q, s => some ⟨s.qubits.set q (!(s.qubits.getD q false)), s.clbits⟩
  | .h _, _ => none
  | .cx c t, s =>
      if s.qubits.getD c false then
        some ⟨s.qubits.set t (!(s.qubits.getD t false)), s.clbits⟩
      else some s
  | .ccx c1 c2 t, s =>
      if s.qubits.getD c1 false && s.qubits.getD c2 false then
        some ⟨s.qubits.set t (!(s.qubits.getD t false)), s.clbits⟩
      else some s
  | .measure q c, s => some ⟨s.qubits, s.clbits.set c (s.qubits.getD q false)⟩

/-- Run a list of gates in order on a basis state. -/
def runOps : List Gate → CState → Option CState
  | [], s => some s
  | g :: gs, s => (applyGate g s).bind (runOps gs)

/-- The classical bitstring qiskit reports: classical bits printed
most-significant (highest index) first. -/
def bitstringOf (s : CState) : String :=
  ⟨s.clbits.reverse.map (fun b => if b then '1' else '0')⟩

/-- Histogram of a run of a circuit whose gates are all classical: the
evolution is deterministic, so every shot yields the same bitstring and
the counts dictionary has a single entry carrying all the shots. -/
def runCounts (c : Circuit) (shots : Nat) : Option (List (String × Nat)) :=
  (runOps c.ops (initState c.numQubits c.numClbits)).map
    (fun s => [(bitstringOf s, shots)])

/-- `kill_rule_classical`: K = int(mutation or timer or geosense). -/
def kill_rule_classical (mutation timer geosense : Bool) : Nat :=
  if mutation || timer || geosense then 1 else 0

/-- `build_reversible_kill_circuit`: 5 qubits (M=0, T=1, G=2, ancilla=3,
K=4), one classical bit, and the fixed gate sequence
Reset(4); CX(0,4); CX(1,4); CX(2,4); CCX(0,1,4); CCX(0,2,4); CCX(1,2,4). -/
def build_reversible_kill_circuit : Circuit :=
  ⟨5, 1,
    [Gate.reset 4,
     Gate.cx 0 4, Gate.cx 1 4, Gate.cx 2 4,
     Gate.ccx 0 1 4, Gate.ccx 0 2 4, Gate.ccx 1 2 4]⟩

/-- Preparation sub-circuit of the truth-table driver: X on qubit 0 when
mutation is set, on qubit 1 when timer is set, on qubit 2 when geosense
is set. -/
def prepOps (mutation timer geosense : Bool) : List Gate :=
  (if mutation then [Gate.x 0] else []) ++
  (if timer then [Gate.x 1] else []) ++
  (if geosense then [Gate.x 2] else [])

/-- Mirror of qiskit's depolarizing error description: probability and
number of qubits. -/
structure QuantumError where
  prob : ℚ
  num_qubits : Nat
deriving DecidableEq, Repr

/-- `depolarizing_error(p, n)`. -/
def depolarizing_error (p : ℚ) (n : Nat) : QuantumError := ⟨p, n⟩

/-- `ReadoutError(probabilities)`: the 2×2 assignment matrix. -/
structure ReadoutError where
  probabilities : List (List ℚ)
deriving DecidableEq, Repr

/-- A noise model: the all-qubit quantum errors with the gate names they
attach to, and the all-qubit readout error, in insertion order. -/
structure NoiseModelL where
  all_qubit_quantum_errors : List (QuantumError × List String)
  all_qubit_readout_error : Option ReadoutError
deriving DecidableEq, Repr

/-- `build_simple_noise_model(p1, p2, readout_err)` (defaults in the
script: 0.002, 0.02, 0.03): depolarizing p1 on the 1-qubit gates,
p2 on cx, p2*1.5 on ccx, and a symmetric readout flip on every qubit. -/
def build_simple_noise_model (p1 p2 readout_err : ℚ) : NoiseModelL :=
  ⟨[(depolarizing_error p1 1, ["u1", "u2", "u3", "x", "h"]),
    (depolarizing_error p2 2, ["cx"]),
    (depolarizing_error (p2 * 1.5) 3, ["ccx"])],
   some ⟨[[1 - readout_err, readout_err], [readout_err, 1 - readout_err]]⟩⟩

/-- The argument record of one `backend.run(compiled, ...)` call:
the circuit submitted, the shot count, the noise model passed (or none),
and the seed passed (the script never passes one, hence `none`). -/
structure SimJob where
  circuit : Circuit
  shots : Nat
  noise_model : Option NoiseModelL
  seed_simulator : Option Nat
deriving DecidableEq, Repr

/-- The `backend.run` call the truth-table driver issues for one input
triple: preparation, then the kill circuit, then `measure(qr[4], cr[0])`,
run with shots=1024, no noise model and no seed. -/
def truthTableJob (mutation timer geosense : Bool) : SimJob :=
  ⟨⟨build_reversible_kill_circuit.numQubits,
    build_reversible_kill_circuit.numClbits,
    prepOps mutation timer geosense ++ build_reversible_kill_circuit.ops ++
      [Gate.measure 4 0]⟩,
   1024, none, none⟩

/-- `prob_kill`: counts of bitstrings whose leading (most-significant
reported) character is '1', divided by the total shots. -/
def probKill (counts : List (String × Nat)) : ℚ :=
  (((counts.filter (fun e => e.1.front == '1')).map Prod.snd).sum : ℚ) /
    ((counts.map Prod.snd).sum : ℚ)

/-- One row of the truth-table DataFrame. -/
structure TruthRow where
  Mutation : Nat
  Timer : Nat
  Geosensing : Nat
  Quantum_Prob_Kill : ℚ
  Classical_Kill : Nat
deriving DecidableEq, Repr

/-- The 8 input triples in the order `itertools.product([0,1], repeat=3)`
enumerates them (last component fastest). -/
def inputCombos : List (Bool × Bool × Bool) :=
  [(false, false, false), (false, false, true),
   (false, true, false), (false, true, true),
   (true, false, false), (true, false, true),
   (true, true, false), (true, true, true)]

/-- One loop iteration of `evaluate_truth_table_quantum`: a single
simulator run of the prepared circuit, then the row recording the inputs,
`prob_kill`, and the classical rule. -/
def truthTableRow (mutation timer geosense : Bool) : Option TruthRow :=
  let job := truthTableJob mutation timer geosense
  (runCounts job.circuit job.shots).map
    (fun counts =>
      ⟨mutation.toNat, timer.toNat, geosense.toNat,
       probKill counts, kill_rule_classical mutation timer geosense⟩)

/-- `evaluate_truth_table_quantum`: one row per input triple. -/
def evaluate_truth_table_quantum : Option (List TruthRow) :=
  inputCombos.mapM (fun p => truthTableRow p.1 p.2.1 p.2.2)

/-- The circuit `superposition_counts` submits: H on the three input
qubits, the kill circuit, then `measure([q4, q3, q2, q1, q0], range(5))`
into a fresh 5-bit classical register. -/
def superpositionCircuit : Circuit :=
  ⟨5, 5,
   [Gate.h 0, Gate.h 1, Gate.h 2] ++ build_reversible_kill_circuit.ops ++
     [Gate.measure 4 0, Gate.measure 3 1, Gate.measure 2 2,
      Gate.measure 1 3, Gate.measure 0 4]⟩

/-- `superposition_counts(noisy, noise_model)`: the `backend.run` call it
issues — the superposition circuit, 4096 shots, the noise model only when
`noisy` is set (`noise_model if noisy else None`), and no seed. -/
def superposition_counts (noisy : Bool) (noise_model : Option NoiseModelL) :
    SimJob :=
  ⟨superpositionCircuit, 4096, if noisy then noise_model else none, none⟩

/-- The two `superposition_counts` invocations the `__main__` block makes,
in order: ideal (`noisy=False`, `noise_model` defaulted to `None`), then
noisy with `build_simple_noise_model()` at its default rates. -/
def main_superposition_jobs : List SimJob :=
  [superposition_counts false none,
   superposition_counts true
     (some (build_simple_noise_model 0.002 0.02 0.03))]

/-- The effects one `plot_counts` call performs: the diagnostic message
printed (if any), whether a figure was created and shown, whether the
`plots/` directory was created (`os.makedirs(..., exist_ok=True)`), and
the path written by `plt.savefig` (if any). -/
structure PlotEffect where
  message : Option String
  figure_created : Bool
  shown : Bool
  made_plots_dir : Bool
  saved_path : Option String
deriving DecidableEq, Repr

/-- `title.replace(' ', '_')`: every space becomes an underscore. -/
def sanitizeTitle (title : String) : String :=
  ⟨title.data.map (fun c => if c = ' ' then '_' else c)⟩

/-- `plot_counts(counts_dict, title, save)`: on an empty (falsy) dict it
prints "No data to plot for <title>" and returns; otherwise it creates a
bar figure, shows it, and when `save` is set makes `plots/` and saves to
`plots/<sanitized title>.png`. -/
def plot_counts (counts_dict : List (String × Nat)) (title : String)
    (save : Bool) : PlotEffect :=
  if counts_dict.isEmpty then
    ⟨some ("No data to plot for " ++ title), false, false, false, none⟩
  else
    ⟨none, true, true, save,
     if save then some ("plots/" ++ sanitizeTitle title ++ ".png")
     else none⟩

/-- Helper: the truth-table run is deterministic — all 1024 shots land on
the single bitstring whose bit is M⊕T⊕G⊕(M∧T)⊕(M∧G)⊕(T∧G), the parity
the reset/CX/CCX sequence actually computes. -/
theorem runCounts_truthTable (mutation timer geosense : Bool) :
    runCounts (truthTableJob mutation timer geosense).circuit
        (truthTableJob mutation timer geosense).shots =
      some [(if ((mutation ^^ timer) ^^ geosense) ^^
          (((mutation && timer) ^^ (mutation && geosense)) ^^
            (timer && geosense)) then "1" else "0", 1024)] := by
  cases mutation <;> cases timer <;> cases geosense <;> decide

/-- Helper: `prob_kill` of a single-entry histogram concentrated on the
one-bit string of `b` is the indicator of `b`. -/
theorem probKill_of_bit (b : Bool) :
    probKill [(if b then "1" else "0", 1024)] = if b then 1 else 0 := by
  cases b
  · norm_num [probKill, List.filter,
      show ("0".front == '1') = false from by decide]
  · norm_num [probKill, List.filter,
      show ("1".front == '1') = true from by decide]

/-- C1: the claim fails on the code at input (M,T,G) = (1,1,1).  The gate
sequence computes K = M⊕T⊕G⊕(M∧T)⊕(M∧G)⊕(T∧G), which is NOT the 3-input
OR: the GF(2) inclusion–exclusion expansion of OR also needs the triple
term M∧T∧G, and no gate of the circuit supplies it.  At (1,1,1) the ideal
run therefore puts all 1024 shots on kill bit 0 — quantum kill
probability 0.0 — while `kill_rule_classical` returns 1, contradicting
the circuit's own docstring "K = T OR M OR G".  The last conjunct gives
the code's actual behavior on every boolean triple (it matches the OR on
the other 7 inputs). -/
theorem kill_prob_diverges_from_classical_at_all_ones :
    ((runCounts (truthTableJob true true true).circuit
        (truthTableJob true true true).shots).map probKill) = some 0 ∧
    kill_rule_classical true true true = 1 ∧
    ((runOps build_reversible_kill_circuit.ops
        ⟨[true, true, true, false, false], [false]⟩).map
          (fun s => s.qubits.getD 4 false)) = some false ∧
    (∀ mutation timer geosense : Bool,
      ((runCounts (truthTableJob mutation timer geosense).circuit
          (truthTableJob mutation timer geosense).shots).map probKill) =
        some (if ((mutation ^^ timer) ^^ geosense) ^^
            (((mutation && timer) ^^ (mutation && geosense)) ^^
              (timer && geosense)) then (1 : ℚ) else 0)) := by
  have hAll : ∀ mutation timer geosense : Bool,
      ((runCounts (truthTableJob mutation timer geosense).circuit
          (truthTableJob mutation timer geosense).shots).map probKill) =
        some (if ((mutation ^^ timer) ^^ geosense) ^^
            (((mutation && timer) ^^ (mutation && geosense)) ^^
              (timer && geosense)) then (1 : ℚ) else 0) := by
    intro mutation timer geosense
    rw [runCounts_truthTable, Option.map_some', probKill_of_bit]
  exact ⟨hAll true true true, rfl, by decide, hAll⟩

/-- C2: The circuit returned by `build_reversible_kill_circuit` has
exactly 5 qubits (mapping M=0, T=1, G=2, ancilla=3, K=4) and its
operation sequence is exactly Reset(4); CX(0,4); CX(1,4); CX(2,4);
CCX(0,1,4); CCX(0,2,4); CCX(1,2,4), in that order. -/
theorem kill_circuit_structure :
    build_reversible_kill_circuit.numQubits = 5 ∧
    build_reversible_kill_circuit.numClbits = 1 ∧
    build_reversible_kill_circuit.ops =
      [Gate.reset 4,
       Gate.cx 0 4, Gate.cx 1 4, Gate.cx 2 4,
       Gate.ccx 0 1 4, Gate.ccx 0 2 4, Gate.ccx 1 2 4] :=
  ⟨rfl, rfl, rfl⟩

/-- C3: The truth-table driver invokes the simulator exactly once for
each of the 8 combinations of the 3 binary inputs; the preparation
sub-circuit applies X to exactly the qubits whose input is 1, the run
uses 1024 shots, and each row's `prob_kill` is computed from that single
run by the leading-bit/total-shots formula. -/
theorem truth_table_driver_structure :
    inputCombos.length = 8 ∧
    (evaluate_truth_table_quantum.map List.length) = some 8 ∧
    (∀ mutation timer geosense : Bool,
      prepOps mutation timer geosense =
        (([(mutation, (0 : Nat)), (timer, 1), (geosense, 2)].filter
            Prod.fst).map (fun p => Gate.x p.2))) ∧
    (∀ mutation timer geosense : Bool,
      (truthTableJob mutation timer geosense).shots = 1024 ∧
      (truthTableJob mutation timer geosense).circuit.ops =
        prepOps mutation timer geosense ++
          build_reversible_kill_circuit.ops ++ [Gate.measure 4 0]) ∧
    (∀ mutation timer geosense : Bool,
      truthTableRow mutation timer geosense =
        (runCounts (truthTableJob mutation timer geosense).circuit
            1024).map (fun counts =>
          ⟨mutation.toNat, timer.toNat, geosense.toNat, probKill counts,
           kill_rule_classical mutation timer geosense⟩)) := by
  refine ⟨rfl, rfl, ?_, fun _ _ _ => ⟨rfl, rfl⟩, fun _ _ _ => rfl⟩
  intro mutation timer geosense
  cases mutation <;> cases timer <;> cases geosense <;> decide

/-- C4: The superposition driver builds one circuit that puts the 3 input
qubits into Hadamard superposition before the OR-logic circuit, measures
all 5 qubits into 5 classical bits, and runs 4096 shots; the main program
invokes it exactly twice, once with no noise model and once with the
supplied noise model. -/
theorem superposition_driver_structure :
    (∀ noisy : Bool, ∀ nm : Option NoiseModelL,
      (superposition_counts noisy nm).circuit =
        ⟨5, 5,
         [Gate.h 0, Gate.h 1, Gate.h 2] ++
           build_reversible_kill_circuit.ops ++
           [Gate.measure 4 0, Gate.measure 3 1, Gate.measure 2 2,
            Gate.measure 1 3, Gate.measure 0 4]⟩) ∧
    (∀ noisy : Bool, ∀ nm : Option NoiseModelL,
      (superposition_counts noisy nm).shots = 4096) ∧
    main_superposition_jobs =
      [superposition_counts false none,
       superposition_counts true
         (some (build_simple_noise_model 0.002 0.02 0.03))] ∧
    main_superposition_jobs.length = 2 ∧
    (superposition_counts false none).noise_model = none ∧
    (∀ nm : Option NoiseModelL,
      (superposition_counts true nm).noise_model = nm) :=
  ⟨fun _ _ => rfl, fun _ _ => rfl, rfl, rfl, rfl, fun _ => rfl⟩

/-- C5: For every p1, p2 and readout_err, the noise model carries a
1-qubit depolarizing error with probability p1 on the one-qubit gates, a
2-qubit one with probability p2 on cx, a 3-qubit one with probability
exactly 1.5×p2 on ccx, and one symmetric readout bit-flip with matrix
[[1−r, r], [r, 1−r]] applied to every qubit. -/
theorem noise_model_structure (p1 p2 readout_err : ℚ) :
    (build_simple_noise_model p1 p2 readout_err).all_qubit_quantum_errors =
      [(⟨p1, 1⟩, ["u1", "u2", "u3", "x", "h"]),
       (⟨p2, 2⟩, ["cx"]),
       (⟨1.5 * p2, 3⟩, ["ccx"])] ∧
    (build_simple_noise_model p1 p2 readout_err).all_qubit_readout_error =
      some ⟨[[1 - readout_err, readout_err],
             [readout_err, 1 - readout_err]]⟩ := by
  refine ⟨?_, rfl⟩
  simp [build_simple_noise_model, depolarizing_error, mul_comm]

/-- C6: Running the superposition driver with `noisy=False` is fully
equivalent to omitting noise: whatever noise model is supplied, the
submitted job is identical to the one submitted with no noise model, and
its noise-model argument is `none` (so the backend performs no channel
lookups and consumes no noise randomness). -/
theorem no_noise_equals_omitted_noise (nm : Option NoiseModelL) :
    superposition_counts false nm = superposition_counts false none ∧
    (superposition_counts false nm).noise_model = none :=
  ⟨rfl, rfl⟩

/-- C7 counterexample: concrete simulator invocations of the script — the
ideal superposition run and the (0,0,0) truth-table run — pass no
seed/generator handle at all. -/
theorem run_calls_omit_seed_counterexample :
    (superposition_counts false none).seed_simulator = none ∧
    (truthTableJob false false false).seed_simulator = none :=
  ⟨rfl, rfl⟩

/-- C7 amended: every simulator invocation of the script passes only the
circuit, the shot count and (for the noisy superposition run) a noise
model; none passes an explicit seed or generator handle, so the runs rely
on the backend's ambient randomness. -/
theorem run_calls_omit_seed (mutation timer geosense noisy : Bool)
    (nm : Option NoiseModelL) :
    (truthTableJob mutation timer geosense).seed_simulator = none ∧
    (truthTableJob mutation timer geosense).shots = 1024 ∧
    (superposition_counts noisy nm).seed_simulator = none ∧
    (superposition_counts noisy nm).shots = 4096 :=
  ⟨rfl, rfl, rfl, rfl⟩

/-- C8: Whenever `plot_counts` is called with a non-empty counts
dictionary and save=True, the plot file is written under the `plots/`
directory (created if absent) with a filename equal to the sanitized
title (spaces replaced by underscores) followed by `.png`. -/
theorem plot_counts_saves_under_plots_dir (counts_dict : List (String × Nat))
    (title : String) (h : counts_dict ≠ []) :
    (plot_counts counts_dict title true).saved_path =
      some ("plots/" ++ sanitizeTitle title ++ ".png") ∧
    (plot_counts counts_dict title true).made_plots_dir = true := by
  cases counts_dict with
  | nil => exact absurd rfl h
  | cons e l => exact ⟨rfl, rfl⟩

/-- C8 witness: at the concrete histogram [("00001", 512)] and the
script's ideal-superposition title, the saved path is
`plots/Quantum_Superposition_(Ideal).png` and `plots/` is created. -/
theorem plot_counts_saves_under_plots_dir_witness :
    ([("00001", 512)] : List (String × Nat)) ≠ [] ∧
    (plot_counts [("00001", 512)] "Quantum Superposition (Ideal)"
        true).saved_path =
      some "plots/Quantum_Superposition_(Ideal).png" ∧
    (plot_counts [("00001", 512)] "Quantum Superposition (Ideal)"
        true).made_plots_dir = true := by
  have h : ([("00001", 512)] : List (String × Nat)) ≠ [] := by decide
  have hthm := plot_counts_saves_under_plots_dir [("00001", 512)]
    "Quantum Superposition (Ideal)" h
  refine ⟨h, ?_, hthm.2⟩
  rw [hthm.1]
  rfl

/-- C9: No operation of the kill circuit acts on qubit 3 (the ancilla),
the truth-table preparation sub-circuit never acts on it either, and
along the whole truth-table path — after every prefix of the executed
operation list, for every input triple — the ancilla is still |0⟩. -/
theorem ancilla_qubit_untouched :
    (build_reversible_kill_circuit.ops.all
      (fun op => op.qubits.all (fun q => q != 3))) = true ∧
    (∀ mutation timer geosense : Bool,
      ((prepOps mutation timer geosense).all
        (fun op => op.qubits.all (fun q => q != 3))) = true) ∧
    (∀ mutation timer geosense : Bool,
      ((List.range
          ((truthTableJob mutation timer geosense).circuit.ops.length + 1)).all
        (fun i =>
          ((runOps
              ((truthTableJob mutation timer geosense).circuit.ops.take i)
              (initState 5 1)).map
                (fun s => s.qubits.getD 3 true)) == some false)) = true) := by
  refine ⟨by decide, ?_, ?_⟩ <;>
    intro mutation timer geosense <;>
    cases mutation <;> cases timer <;> cases geosense <;> decide

/-- C10: Calling `plot_counts` with an empty (falsy) counts dictionary
returns immediately after printing the diagnostic message, creating no
figure, showing no plot, making no directory and writing no file, even
when save=True. -/
theorem plot_counts_empty_is_noop (title : String) (save : Bool) :
    plot_counts [] title save =
      ⟨some ("No data to plot for " ++ title), false, false, false, none⟩ :=
  rfl
